import Mathlib

/-!
A shallow embedding of the architecture-audit script `main.py` (the canonical,
Config-driven variant) and proofs about it.

Modelling conventions:
* `Path` values are modelled as lists of path segments (`PyPath`); the string
  rendering `str(path)` joins the segments with `"/"` (`pathStr`), and
  `Path.is_relative_to` is segment-list prefix.
* Python `str` operations used by the script are modelled on character lists:
  `needle in haystack` is `strIn` (contiguous substring), `s.split(".")` is
  `pySplitDot`, `s.endswith(t)` / `s.startswith(t)` are suffix/prefix tests.
* Python `set[str]` accumulation is modelled as a duplicate-free list built by
  `setAdd`; set iteration order is unspecified in Python, and every property
  proved below is independent of the order chosen by the model.
* Python integers are `Nat`/`Int`; Python floats are modelled as exact real
  numbers (`Rat` where the script only multiplies and rounds, `Real` for the
  statistics, with `x ** 0.5` on a nonnegative float modelled as `Real.sqrt`).
  Built-in `round` is banker's rounding (`pyRound`).
* A raised `ZeroDivisionError` is modelled with `Except`.
-/

/-- Path model: a list of path segments. -/
abbrev PyPath := List String

/-- Model of `str(path)`: segments joined by the separator. -/
def pathStr (p : PyPath) : String := String.intercalate "/" p

/-- Contiguous-sublist test on character lists (model of Python `in` on `str`). -/
def subListChar (needle : List Char) : List Char → Bool
  | [] => needle.isEmpty
  | c :: rest => needle.isPrefixOf (c :: rest) || subListChar needle rest

/-- Model of Python `needle in haystack` for strings: contiguous substring. -/
def strIn (needle haystack : String) : Bool :=
  subListChar needle.toList haystack.toList

/-- Model of Python `s.endswith(suffix)`. -/
def pyEndsWith (s suf : String) : Bool := suf.toList.isSuffixOf s.toList

/-- Model of Python `s.startswith(pre)`. -/
def pyStartsWith (s pre : String) : Bool := pre.toList.isPrefixOf s.toList

/-- Helper for `pySplitDot`: split the remaining characters on `sep`,
`acc` holding the (reversed) characters of the current chunk. -/
def pySplitAux (sep : Char) : List Char → List Char → List String
  | [], acc => [String.mk acc.reverse]
  | c :: rest, acc =>
    if c = sep then String.mk acc.reverse :: pySplitAux sep rest []
    else pySplitAux sep rest (c :: acc)

/-- Model of Python `s.split(".")` (as used on import targets). -/
def pySplitDot (s : String) : List String := pySplitAux '.' s.toList []

/-- Model of Python `set.add` on a duplicate-free list: append if absent. -/
def setAdd {α : Type} [DecidableEq α] (l : List α) (x : α) : List α :=
  if x ∈ l then l else l ++ [x]

/-- Model of Python 3 built-in `round` on an exact rational: round half to even. -/
def pyRound (q : ℚ) : ℤ :=
  let f : ℤ := ⌊q⌋
  let frac : ℚ := q - (f : ℚ)
  if frac < 1/2 then f
  else if 1/2 < frac then f + 1
  else if f % 2 = 0 then f else f + 1

/-- The syntax-node kinds the script distinguishes.  `ast.walk` yields a
sequence of nodes; every node kind the script does not inspect is
`otherNode`.  `importFrom` carries `node.module` (`none` for a purely
relative `from . import x`) and the imported names (which the script
ignores); `importStmt` carries the module name of each alias in
`node.names`. -/
inductive AstNode where
  | assertStmt | assignStmt | annAssign | augAssign | breakStmt | continueStmt
  | deleteStmt | exprStmt | exceptHandler | forStmt | globalStmt | ifStmt
  | nonlocalStmt | passStmt | raiseStmt | returnStmt | tryStmt | tryStar
  | typeAlias | whileStmt | withStmt | matchStmt
  | importFrom (module : Option String) (names : List String)
  | importStmt (names : List String)
  | otherNode
  deriving DecidableEq

/-- `is_statement` from the source: the closed `isinstance` tuple.  Note that
the import node kinds are not in the tuple. -/
def is_statement : AstNode → Bool
  | .assertStmt | .assignStmt | .annAssign | .augAssign | .breakStmt
  | .continueStmt | .deleteStmt | .exprStmt | .exceptHandler | .forStmt
  | .globalStmt | .ifStmt | .nonlocalStmt | .passStmt | .raiseStmt
  | .returnStmt | .tryStmt | .tryStar | .typeAlias | .whileStmt
  | .withStmt | .matchStmt => true
  | _ => false

/-- `should_skip_file` from the source. -/
def should_skip_file (file_name : String) : Bool :=
  !pyEndsWith file_name ".py" || file_name == "__init__.py"

/-- `should_skip_dir` from the source. -/
def should_skip_dir (dir_name : String) : Bool :=
  pyStartsWith dir_name "." || pyStartsWith dir_name "_"

/-- The per-node step of the `ast.walk` loop that collects a file's
deduplicated set of import targets (`generate_counter`, loop body):
a `from module import names` node adds `node.module` when it is truthy
(a `None` or empty module adds nothing); an `import a, b` node adds each
alias name. -/
def importStep (imports : List String) (node : AstNode) : List String :=
  match node with
  | .importFrom m _ =>
    match m with
    | none => imports
    | some import_name => if import_name = "" then imports else setAdd imports import_name
  | .importStmt names => names.foldl setAdd imports
  | _ => imports

/-- The import-target set a file's node sequence produces in `generate_counter`. -/
def fileImports (nodes : List AstNode) : List String :=
  nodes.foldl importStep []

/-- The statement count a file's node sequence produces in `generate_counter`:
one increment per node satisfying `is_statement`. -/
def countStatements (nodes : List AstNode) : Nat :=
  nodes.countP (fun n => is_statement n)

/-- `FileCounter` dataclass. -/
structure FileCounter where
  file_path : PyPath
  statement_count : Nat
  imports : List String
  deriving DecidableEq

/-- `ComponentCounter` dataclass. -/
structure ComponentCounter where
  component_path : PyPath
  statement_count : Nat
  file_counters : List FileCounter
  deriving DecidableEq

/-- `GlobalCounter` dataclass. -/
structure GlobalCounter where
  statement_count : Nat
  component_counters : List ComponentCounter
  deriving DecidableEq

/-- `Config` dataclass (percentages and the deviation threshold are exact
rationals in the model). -/
structure Config where
  libs_path : PyPath
  packages_path : PyPath
  max_file_statement_count_percent : ℚ
  max_component_statement_count_percent : ℚ
  max_component_statement_std_deviation_count : ℚ

/-- A source file on disk: its name and the node sequence `ast.walk` yields
for its parsed contents. -/
structure PyFile where
  name : String
  nodes : List AstNode
  deriving DecidableEq

mutual
/-- A directory of the scanned tree: its name, subdirectories and files
(the filesystem-walker collaborator's view). -/
inductive FSTree where
  | node (name : String) (subdirs : FSForest) (files : List PyFile)

/-- The ordered subdirectory listing of a directory. -/
inductive FSForest where
  | nil : FSForest
  | cons : FSTree → FSForest → FSForest
end

/-- Name of a directory. -/
def treeName : FSTree → String
  | .node n _ _ => n

/-- The ordered subdirectory names of a forest (the `dir_names` list a
`Path.walk` entry yields). -/
def forestNames : FSForest → List String
  | .nil => []
  | .cons t ts => treeName t :: forestNames ts

/-- One step of a Python `for x in l: if skip(x): l.remove(x)` loop over a
duplicate-free list, tracked by the iterator index `i`.  CPython's list
iterator reads position `i` and advances to `i + 1`; removing the element
just read shifts the later elements one slot left, so the element that was
immediately after a removed one is never visited.  `fuel` bounds the number
of iterations (the initial list length always suffices, since every
iteration advances `i` and the list never grows). -/
def forRemoveAux (skip : String → Bool) : Nat → List String → Nat → List String
  | 0, l, _ => l
  | fuel + 1, l, i =>
    if h : i < l.length then
      let x := l.get ⟨i, h⟩
      forRemoveAux skip fuel (if skip x then l.erase x else l) (i + 1)
    else l

/-- Model of the pruning loop in `generate_counter`:
`for dir_name in dir_names: if should_skip_dir(dir_name): dir_names.remove(dir_name)`
with CPython's mutate-while-iterating semantics. -/
def pruneDirNames (l : List String) : List String :=
  forRemoveAux should_skip_dir l.length l 0

/-- `dir_is_package` from the source, evaluated on a directory's file
listing: the directory directly contains a file named `__init__.py`. -/
def dir_is_package (files : List PyFile) : Bool :=
  files.any (fun f => f.name == "__init__.py")

/-- The mutable aggregation state of `generate_counter`: the insertion-ordered
`component_counters` dict (as an association list keyed by
`component_path`) and `total_statement_count`. -/
structure CounterState where
  components : List ComponentCounter
  total : Nat
  deriving DecidableEq

/-- The effect of the three `component_counters[component_path]` updates in
`generate_counter`: on first access the `defaultdict` inserts a fresh
zero-count entry (at the end, preserving insertion order), then the
component's path is set, its count incremented and the file appended. -/
def addFileCounter (cp : PyPath) (fc : FileCounter) : List ComponentCounter → List ComponentCounter
  | [] => [⟨cp, 0 + fc.statement_count, [] ++ [fc]⟩]
  | c :: cs =>
    if c.component_path = cp then
      ⟨cp, c.statement_count + fc.statement_count, c.file_counters ++ [fc]⟩ :: cs
    else
      c :: addFileCounter cp fc cs

/-- The per-file body of `generate_counter`'s walk loop: skip non-`.py` and
marker files, skip files whose directory is not a package, otherwise parse,
count statements, collect imports and fold the `FileCounter` into the state
(the global total is incremented once per statement node alongside the
file count). -/
def processFile (dirPath : PyPath) (isPkg : Bool) (st : CounterState) (f : PyFile) : CounterState :=
  if should_skip_file f.name then st
  else if !isPkg then st
  else
    let fc : FileCounter := ⟨dirPath ++ [f.name], countStatements f.nodes, fileImports f.nodes⟩
    ⟨addFileCounter dirPath fc st.components, st.total + countStatements f.nodes⟩

mutual
/-- `generate_counter`'s walk, one directory at a time (top-down): prune the
subdirectory names with the mutate-while-iterating loop, process the
directory's files, then descend into the subdirectories that survived
pruning, in listing order. -/
def processDir (dirPath : PyPath) : FSTree → CounterState → CounterState
  | .node _ subdirs files, st =>
    let kept := pruneDirNames (forestNames subdirs)
    let st1 := files.foldl (processFile dirPath (dir_is_package files)) st
    processForest dirPath kept subdirs st1

/-- Descend into the subdirectories whose names survived pruning. -/
def processForest (dirPath : PyPath) (kept : List String) : FSForest → CounterState → CounterState
  | .nil, st => st
  | .cons t ts, st =>
    let st1 :=
      if kept.contains (treeName t) then processDir (dirPath ++ [treeName t]) t st else st
    processForest dirPath kept ts st1
end

/-- `generate_counter` from the source, over the modelled tree rooted at
`folder_path` (whose own path is its name). -/
def generate_counter (t : FSTree) : GlobalCounter :=
  let st := processDir [treeName t] t ⟨[], 0⟩
  ⟨st.total, st.components⟩

mutual
/-- `get_package_names`'s walk over one directory: if the directory contains
`__init__.py` record its name and stop descending (`dir_names.clear()`),
otherwise recurse into all subdirectories. -/
def packageNamesDir : FSTree → List String
  | .node n subdirs files =>
    if files.any (fun f => f.name == "__init__.py") then [n]
    else packageNamesForest subdirs

/-- `get_package_names`'s walk over a subdirectory listing. -/
def packageNamesForest : FSForest → List String
  | .nil => []
  | .cons t ts => packageNamesDir t ++ packageNamesForest ts
end

/-- `get_package_names` from the source: the names of the outermost
marker-bearing directories under `path`. -/
def get_package_names (t : FSTree) : List String := packageNamesDir t

/-- The error raised by a Python division whose divisor is zero. -/
inductive PyError where
  | zeroDivisionError
  deriving DecidableEq

/-- `calculate_std_dev_and_mean` from the source.  The two divisions raise
`ZeroDivisionError` when their divisor is zero (no components: the mean's
divisor `component_count`; one component: the variance's divisor
`component_count - 1`); `x ** 0.5` on the nonnegative float `x` is
`Real.sqrt`. -/
noncomputable def calculate_std_dev_and_mean (counter : GlobalCounter) :
    Except PyError (ℝ × ℝ) :=
  let component_count := counter.component_counters.length
  if component_count = 0 then .error .zeroDivisionError
  else
    let component_statement_mean : ℝ := (counter.statement_count : ℝ) / (component_count : ℝ)
    let square_diff_sum : ℝ :=
      counter.component_counters.foldl
        (fun acc c => acc + |(c.statement_count : ℝ) - component_statement_mean| ^ 2) 0
    if (component_count : ℤ) - 1 = 0 then .error .zeroDivisionError
    else .ok (Real.sqrt (square_diff_sum / ((component_count : ℝ) - 1)), component_statement_mean)

/-- The data carried by a file-size warning string
(`"Path {file_path} has {statement_count} statements. Maximim allowed … is {max}"`). -/
structure FileSizeWarning where
  file_path : PyPath
  statement_count : Nat
  max_allowed : ℤ
  deriving DecidableEq

/-- The data carried by the two kinds of `import_warnings` strings: a lib file
importing a package, or a package file importing a sibling package. -/
inductive ImportWarning where
  | libImportsPackage (file_path : PyPath) (package_name : String)
  | packageImportsPackage (file_path : PyPath) (package_name : String)
  deriving DecidableEq

/-- `max_file_statement_count` as computed at the top of `generate_report`:
note the source multiplies by `config.max_component_statement_count_percent`. -/
def max_file_statement_count (config : Config) (counter : GlobalCounter) : ℤ :=
  pyRound ((counter.statement_count : ℚ) * config.max_component_statement_count_percent)

/-- The lib-rule inner loops of `generate_report`'s first pass:
`if is_lib: for import_ in imports: for package_name in package_names: …`,
warning whenever the package name is a whole dot-segment of the import. -/
def lib_import_warnings (config : Config) (package_names : List String)
    (fc : FileCounter) : List ImportWarning :=
  if config.libs_path.isPrefixOf fc.file_path then
    fc.imports.flatMap fun import_ =>
      package_names.flatMap fun package_name =>
        if package_name ∈ pySplitDot import_ then
          [.libImportsPackage fc.file_path package_name]
        else []
  else []

/-- The package-rule inner loops of `generate_report`'s first pass:
`if is_package: …`, warning whenever the package name is NOT a substring of
`str(file_path)` (the exemption) and is a whole dot-segment of the import. -/
def package_import_warnings (config : Config) (package_names : List String)
    (fc : FileCounter) : List ImportWarning :=
  if config.packages_path.isPrefixOf fc.file_path then
    fc.imports.flatMap fun import_ =>
      package_names.flatMap fun package_name =>
        if strIn package_name (pathStr fc.file_path) = false ∧
            package_name ∈ pySplitDot import_ then
          [.packageImportsPackage fc.file_path package_name]
        else []
  else []

/-- `generate_report`'s first pass over every component's every file: the
file-size warnings and the import warnings it accumulates, in order. -/
def report_file_checks (config : Config) (package_names : List String)
    (counter : GlobalCounter) : List FileSizeWarning × List ImportWarning :=
  let maxFile := max_file_statement_count config counter
  (counter.component_counters.flatMap fun c =>
     c.file_counters.flatMap fun fc =>
       if (fc.statement_count : ℤ) > maxFile then
         [⟨fc.file_path, fc.statement_count, maxFile⟩]
       else [],
   counter.component_counters.flatMap fun c =>
     c.file_counters.flatMap fun fc =>
       lib_import_warnings config package_names fc ++
         package_import_warnings config package_names fc)

/-- The data carried by a `component_statement_count_warnings` string:
the component (the source interpolates the whole dataclass) and its
z-score `std_dev_count`. -/
structure OutlierWarning where
  component : ComponentCounter
  std_dev_count : ℝ

/-- `Path(component_path).name`: the final path segment. -/
def leafName (p : PyPath) : String := p.getLastD ""

/-- `generate_report`'s second pass, one component at a time.  The state is
`(component_statement_count_warnings, leaf_nodes, common_components)`.
Each iteration divides by `std_dev` (raising `ZeroDivisionError` when the
standard deviation is zero), appends an outlier warning when the z-score
exceeds the literal `3` from the source, and tracks duplicate component
leaf names. -/
noncomputable def component_checks (std_dev component_statement_mean : ℝ) :
    List ComponentCounter → List OutlierWarning × List String × List String →
    Except PyError (List OutlierWarning × List String × List String)
  | [], st => .ok st
  | c :: cs, (warnings, leaf_nodes, common_components) =>
    if std_dev = 0 then .error .zeroDivisionError
    else
      let std_dev_count := |(c.statement_count : ℝ) - component_statement_mean| / std_dev
      let warnings' := if std_dev_count > 3 then warnings ++ [⟨c, std_dev_count⟩] else warnings
      let leaf := leafName c.component_path
      if leaf ∈ leaf_nodes then
        component_checks std_dev component_statement_mean cs
          (warnings', leaf_nodes, setAdd common_components (pathStr c.component_path))
      else
        component_checks std_dev component_statement_mean cs
          (warnings', leaf_nodes ++ [leaf], common_components)

/-- `generate_report`'s third pass, duplicate-file-name half: fold every
file's base name through the `(seen_files, common_files)` sets. -/
def common_files_of (counters : List ComponentCounter) : List String :=
  (counters.foldl (fun st c =>
    c.file_counters.foldl (fun st2 fc =>
      let file_name := leafName fc.file_path
      if file_name ∈ st2.1 then (st2.1, setAdd st2.2 file_name)
      else (st2.1 ++ [file_name], st2.2)) st) (([], []) : List String × List String)).2

/-- `generate_report`'s third pass, misplaced-file half: a file joins the
`files_in_root` set when some component's path string strictly extends its
own component's path string by Python substring containment
(`str(component) in str(look_up) and len(str(look_up)) > len(str(component))`). -/
def files_in_root_of (counters : List ComponentCounter) : List PyPath :=
  counters.foldl (fun acc c =>
    c.file_counters.foldl (fun acc2 fc =>
      if counters.any (fun look_up =>
          strIn (pathStr c.component_path) (pathStr look_up.component_path) &&
            decide ((pathStr c.component_path).length <
              (pathStr look_up.component_path).length)) then
        setAdd acc2 fc.file_path
      else acc2) acc) []

/-- `Report` dataclass; each warning list holds the data of its strings, and
the three "at most one warning" lists hold the whole set when nonempty. -/
structure Report where
  file_statement_count_warnings : List FileSizeWarning
  component_statement_count_warnings : List OutlierWarning
  import_warnings : List ImportWarning
  files_in_root_warnings : List (List PyPath)
  common_components_warnings : List (List String)
  common_files_warnings : List (List String)
  counter : GlobalCounter

/-- `generate_report` from the source, given the already-generated counter and
package names (both produced from the filesystem by `generate_counter` and
`get_package_names`).  A `ZeroDivisionError` raised by the statistics or by
the outlier pass aborts the report. -/
noncomputable def generate_report (config : Config) (counter : GlobalCounter)
    (package_names : List String) : Except PyError Report :=
  let checks := report_file_checks config package_names counter
  match calculate_std_dev_and_mean counter with
  | .error e => .error e
  | .ok (std_dev, component_statement_mean) =>
    match component_checks std_dev component_statement_mean
        counter.component_counters ([], [], []) with
    | .error e => .error e
    | .ok (outliers, _leaf_nodes, common_components) =>
      let common_files := common_files_of counter.component_counters
      let files_in_root := files_in_root_of counter.component_counters
      .ok ⟨checks.1, outliers, checks.2,
        if files_in_root.length > 0 then [files_in_root] else [],
        if common_components.length > 0 then [common_components] else [],
        if common_files.length > 0 then [common_files] else [],
        counter⟩

/-- The comparison `sorted(…, key=λc. c.statement_count, reverse=True)`
effectively sorts by: `a` may come before `b` iff `b`'s count is at most
`a`'s.  Python's `sorted` is stable, which `List.insertionSort` with this
relation models exactly. -/
def sortKeyGE (a b : ComponentCounter) : Prop :=
  b.statement_count ≤ a.statement_count

instance : DecidableRel sortKeyGE := fun _ _ => Nat.decLe _ _

instance : IsTotal ComponentCounter sortKeyGE :=
  ⟨fun a b => Nat.le_total b.statement_count a.statement_count⟩

instance : IsTrans ComponentCounter sortKeyGE :=
  ⟨fun _ _ _ h1 h2 => le_trans h2 h1⟩

/-- `save_report` from the source: the components sorted by statement count
descending (Python's stable sort), serialized as the ordered
`str(component_path) → statement_count` mapping of `components.json`. -/
def save_report (counter : GlobalCounter) : List (String × Nat) :=
  (counter.component_counters.insertionSort sortKeyGE).map
    (fun c => (pathStr c.component_path, c.statement_count))

/-! Concrete inputs used by the claim theorems. -/

/-- A config whose two percentage fields differ: the file percentage is 1/2,
the component percentage 0. -/
def cfgPercents : Config := ⟨["libs"], ["packages"], 1/2, 0, 3⟩

/-- Ten global statements split 3/7 over two single-file components. -/
def counterTwoFiles : GlobalCounter :=
  ⟨10,
   [⟨["r", "c1"], 3, [⟨["r", "c1", "a.py"], 3, []⟩]⟩,
    ⟨["r", "c2"], 7, [⟨["r", "c2", "b.py"], 7, []⟩]⟩]⟩

/-- A single-component counter (N = 1 at statistics time). -/
def counterSingle : GlobalCounter := ⟨5, [⟨["r", "p"], 5, [⟨["r", "p", "a.py"], 5, []⟩]⟩]⟩

/-- A config rooting packages at `packages`. -/
def cfgPackages : Config := ⟨["libs"], ["packages"], 1/10, 1/10, 3⟩

/-- One file under `packages/abc` importing `ab.x`, with `ab` a known package
name: its path contains `ab` only inside the longer segment `abc`. -/
def counterSubstring : GlobalCounter :=
  ⟨1, [⟨["packages", "abc"], 1, [⟨["packages", "abc", "f.py"], 1, ["ab.x"]⟩]⟩]⟩

/-- Sibling components `packages/ab` and `packages/abc`: the first path is a
raw string prefix of the second but not a path-segment ancestor. -/
def componentsAbAbc : List ComponentCounter :=
  [⟨["packages", "ab"], 1, [⟨["packages", "ab", "f.py"], 1, []⟩]⟩,
   ⟨["packages", "abc"], 2, [⟨["packages", "abc", "g.py"], 2, []⟩]⟩]

/-- The spec's outlier example: component counts `[10, 10, 10, 100]`
(global total 130), all names distinct. -/
def counterOutlier : GlobalCounter :=
  ⟨130,
   [⟨["pa"], 10, [⟨["pa", "a.py"], 10, []⟩]⟩,
    ⟨["pb"], 10, [⟨["pb", "b.py"], 10, []⟩]⟩,
    ⟨["pc"], 10, [⟨["pc", "c.py"], 10, []⟩]⟩,
    ⟨["pd"], 100, [⟨["pd", "d.py"], 100, []⟩]⟩]⟩

/-- A config with outlier threshold 1.0 (and permissive percentages). -/
def cfgThreshold1 : Config := ⟨["libs"], ["packages"], 1, 1, 1⟩

/-- A directory with two consecutive prunable subdirectories `.a` and `.b`,
where `.b` holds a package with a two-statement file. -/
def treeDotDirs : FSTree :=
  .node "r"
    (.cons (.node ".a" .nil [])
      (.cons (.node ".b" .nil
        [⟨"__init__.py", []⟩, ⟨"x.py", [.assignStmt, .returnStmt]⟩]) .nil))
    []

/-- Two equal-count components whose insertion order (`b` before `a`) is the
reverse of their paths' lexicographic order. -/
def counterTie : GlobalCounter :=
  ⟨10, [⟨["b"], 5, [⟨["b", "f.py"], 5, []⟩]⟩, ⟨["a"], 5, [⟨["a", "g.py"], 5, []⟩]⟩]⟩

/-- What §4.2 of the spec says a node contributes to the import-target set:
a `from module import names` node with a (truthy) module contributes that
module name; an `import a, b` node contributes each alias name; other nodes
contribute nothing. -/
def contributes_import_target : AstNode → String → Prop
  | .importFrom m _, s => m = some s ∧ s ≠ ""
  | .importStmt names, s => s ∈ names
  | _, _ => False

/-- The aggregation invariant of `generate_counter`'s state: the global total
is the sum of the component counts, every component's count is the sum of
its files' counts, and no component is ever created without a file. -/
def CounterInv (st : CounterState) : Prop :=
  st.total = (st.components.map ComponentCounter.statement_count).sum ∧
    ∀ c ∈ st.components,
      c.statement_count = (c.file_counters.map FileCounter.statement_count).sum ∧
        c.file_counters ≠ []

/-- Claim C2: with zero or one components, `calculate_std_dev_and_mean` does
not return a value — but the error it raises is Python's `ZeroDivisionError`
(the mean's divisor `component_count` is 0, resp. the variance's divisor
`component_count - 1` is 0), not the `InsufficientDataError` the claim
requires; no such exception class exists in the source. -/
theorem insufficient_data_raises_zero_division (counter : GlobalCounter)
    (h : counter.component_counters.length ≤ 1) :
    calculate_std_dev_and_mean counter = .error .zeroDivisionError := by
  match hc : counter.component_counters with
  | [] => simp [calculate_std_dev_and_mean, hc]
  | [c] => simp [calculate_std_dev_and_mean, hc]
  | a :: b :: rest => rw [hc] at h; simp at h

/-- Witness for C2 at a concrete single-component counter. -/
theorem insufficient_data_raises_zero_division_witness :
    calculate_std_dev_and_mean counterSingle = .error .zeroDivisionError :=
  insufficient_data_raises_zero_division counterSingle (by decide)

/-- Claim C1: the file-size threshold `generate_report` uses is computed from
`max_component_statement_count_percent`, not from
`max_file_statement_count_percent` as the claim states.  With a global count
of 10, file percentage 1/2 and component percentage 0, the claim's threshold
is `round(10 × 1/2) = 5`, so the 3-statement file must not be flagged — yet
the source flags it (its threshold is `round(10 × 0) = 0`). -/
theorem file_size_threshold_uses_component_percent :
    (report_file_checks cfgPercents [] counterTwoFiles).1 =
      [⟨["r", "c1", "a.py"], 3, 0⟩, ⟨["r", "c2", "b.py"], 7, 0⟩] ∧
    pyRound ((counterTwoFiles.statement_count : ℚ) *
      cfgPercents.max_file_statement_count_percent) = 5 ∧
    ¬ ((3 : ℤ) > 5) := by
  have h0 : max_file_statement_count cfgPercents counterTwoFiles = 0 := by
    norm_num [max_file_statement_count, pyRound, cfgPercents, counterTwoFiles]
  refine ⟨?_, by norm_num [pyRound, counterTwoFiles, cfgPercents], by norm_num⟩
  simp only [report_file_checks]
  rw [h0]
  decide

/-- Claim C3, counterexample: package name `ab` is not a whole path segment of
`packages/abc/f.py` and is a whole segment of the import target `ab.x`, so
the claim demands a sibling-package warning — but the source's substring
exemption (`"ab" in "packages/abc/f.py"`) suppresses it: no import warning
is produced. -/
theorem package_exemption_substring_cex :
    ("ab" ∉ (["packages", "abc", "f.py"] : List String)) ∧
    "ab" ∈ pySplitDot "ab.x" ∧
    (report_file_checks cfgPackages ["ab"] counterSubstring).2 = [] := by decide

/-- Claim C4: the misplaced-file pass flags the file of `packages/ab` because
`"packages/ab"` is a raw substring (and strict string prefix) of
`"packages/abc"`, although `["packages", "ab"]` is not a path-segment
ancestor of `["packages", "abc"]` — the claim says such a file is never
flagged. -/
theorem misplaced_file_substring_flagging :
    files_in_root_of componentsAbAbc = [["packages", "ab", "f.py"]] ∧
    (["packages", "ab"] : List String).isPrefixOf ["packages", "abc"] = false := by decide

/-- Claim C8: both `.a` and `.b` are prunable, but the source's
mutate-while-iterating loop removes only `.a` and never visits `.b` (the
iterator skips the element shifted into the removed slot), so the walk
descends into `.b` and counts its two statements — the claim says no file
under a prunable directory is ever counted. -/
theorem consecutive_skip_dirs_not_pruned :
    should_skip_dir ".a" = true ∧ should_skip_dir ".b" = true ∧
    generate_counter treeDotDirs =
      ⟨2, [⟨["r", ".b"], 2, [⟨["r", ".b", "x.py"], 2, []⟩]⟩]⟩ := by decide

/-- Claim C9, counterexample: two components with equal count 5 and paths
`b`, `a` (in that insertion order) serialize as `b` before `a`, although
`a` is lexicographically smaller — `save_report` has no path tie-break. -/
theorem save_report_tie_order_cex :
    save_report counterTie = [("b", 5), ("a", 5)] ∧
    List.Lex (· < ·) "a".toList "b".toList := by
  refine ⟨by decide, ?_⟩
  exact List.Lex.rel (by decide)

theorem mem_setAdd {α : Type} [DecidableEq α] {l : List α} {x a : α} :
    a ∈ setAdd l x ↔ a ∈ l ∨ a = x := by
  by_cases h : x ∈ l <;> simp [setAdd, h]
  aesop

theorem nodup_setAdd {α : Type} [DecidableEq α] {l : List α} {x : α} (h : l.Nodup) :
    (setAdd l x).Nodup := by
  by_cases hx : x ∈ l <;> simp [setAdd, hx, h, List.nodup_append]

theorem mem_foldl_setAdd (names : List String) : ∀ (acc : List String) (a : String),
    a ∈ names.foldl setAdd acc ↔ a ∈ acc ∨ a ∈ names := by
  induction names with
  | nil => simp
  | cons n ns ih =>
    intro acc a
    rw [List.foldl_cons, ih, mem_setAdd]
    simp
    tauto

theorem nodup_foldl_setAdd (names : List String) : ∀ acc : List String, acc.Nodup →
    (names.foldl setAdd acc).Nodup := by
  induction names with
  | nil => simp
  | cons n ns ih => intro acc h; exact ih _ (nodup_setAdd h)

theorem mem_importStep (acc : List String) (n : AstNode) (s : String) :
    s ∈ importStep acc n ↔ s ∈ acc ∨ contributes_import_target n s := by
  cases n with
  | importFrom m names =>
    cases m with
    | none => simp [importStep, contributes_import_target]
    | some v =>
      by_cases hv : v = "" <;>
        simp [importStep, contributes_import_target, hv, mem_setAdd] <;> aesop
  | importStmt names => simp [importStep, contributes_import_target, mem_foldl_setAdd]
  | _ => simp [importStep, contributes_import_target]

theorem nodup_importStep (acc : List String) (n : AstNode) (h : acc.Nodup) :
    (importStep acc n).Nodup := by
  cases n with
  | importFrom m names =>
    cases m with
    | none => simpa [importStep]
    | some v =>
      by_cases hv : v = "" <;> simp [importStep, hv, h, nodup_setAdd]
  | importStmt names => exact nodup_foldl_setAdd names acc h
  | _ => simpa [importStep]

theorem mem_foldl_importStep (nodes : List AstNode) (s : String) : ∀ acc : List String,
    s ∈ nodes.foldl importStep acc ↔
      s ∈ acc ∨ ∃ n ∈ nodes, contributes_import_target n s := by
  induction nodes with
  | nil => simp
  | cons n ns ih =>
    intro acc
    rw [List.foldl_cons, ih, mem_importStep]
    simp
    tauto

theorem nodup_foldl_importStep (nodes : List AstNode) : ∀ acc : List String, acc.Nodup →
    (nodes.foldl importStep acc).Nodup := by
  induction nodes with
  | nil => simp
  | cons n ns ih => intro acc h; exact ih _ (nodup_importStep acc n h)

/-- Claim C7: the import set of a file's node sequence has no duplicates, and
a string is in it exactly when some node contributes it — a `from module`
node contributes its (truthy) module name only, however many names it
imports, and an `import a, b` node contributes each alias name.  In
particular a module imported by two different nodes appears exactly once. -/
theorem file_imports_characterization (nodes : List AstNode) (s : String) :
    (fileImports nodes).Nodup ∧
    (s ∈ fileImports nodes ↔ ∃ n ∈ nodes, contributes_import_target n s) := by
  constructor
  · exact nodup_foldl_importStep nodes [] (by simp)
  · simpa using mem_foldl_importStep nodes s []

/-- Claim C10: a `from … import` node whose module attribute is absent (a
purely relative import) adds nothing at all to the file's import set. -/
theorem relative_import_adds_nothing (ns1 ns2 : List AstNode) (names : List String) :
    fileImports (ns1 ++ AstNode.importFrom none names :: ns2) =
      fileImports (ns1 ++ ns2) := by
  simp [fileImports, List.foldl_append, List.foldl_cons, importStep]

theorem mem_if_singleton {α : Type} {p : Prop} [Decidable p] {a x : α} :
    a ∈ (if p then [x] else []) ↔ p ∧ a = x := by
  split <;> simp_all

theorem mem_lib_import_warnings (config : Config) (package_names : List String)
    (fc : FileCounter) (w : ImportWarning) :
    w ∈ lib_import_warnings config package_names fc ↔
      config.libs_path.isPrefixOf fc.file_path = true ∧
      ∃ im ∈ fc.imports, ∃ pn ∈ package_names,
        pn ∈ pySplitDot im ∧ w = .libImportsPackage fc.file_path pn := by
  unfold lib_import_warnings
  split <;> simp_all [List.mem_flatMap, mem_if_singleton]

theorem mem_package_import_warnings (config : Config) (package_names : List String)
    (fc : FileCounter) (w : ImportWarning) :
    w ∈ package_import_warnings config package_names fc ↔
      config.packages_path.isPrefixOf fc.file_path = true ∧
      ∃ im ∈ fc.imports, ∃ pn ∈ package_names,
        strIn pn (pathStr fc.file_path) = false ∧ pn ∈ pySplitDot im ∧
        w = .packageImportsPackage fc.file_path pn := by
  unfold package_import_warnings
  split <;> simp_all [List.mem_flatMap, mem_if_singleton]
  aesop

/-- Claim C3, amended: a sibling-package warning for `(fp, pn)` is emitted
exactly when some tracked file at path `fp` lies under `packages_path` and
has an import target with `pn` as a whole dot-segment, while `pn` is NOT a
raw substring of the rendered path string `str(fp)` — substring, not
path-segment, exemption. -/
theorem package_import_warning_iff (config : Config) (package_names : List String)
    (counter : GlobalCounter) (fp : PyPath) (pn : String) :
    ImportWarning.packageImportsPackage fp pn ∈
        (report_file_checks config package_names counter).2 ↔
      ∃ c ∈ counter.component_counters, ∃ fc ∈ c.file_counters,
        fc.file_path = fp ∧ config.packages_path.isPrefixOf fp = true ∧
        ∃ im ∈ fc.imports, pn ∈ package_names ∧
          strIn pn (pathStr fp) = false ∧ pn ∈ pySplitDot im := by
  simp only [report_file_checks, List.mem_flatMap, List.mem_append,
    mem_lib_import_warnings, mem_package_import_warnings]
  constructor
  · rintro ⟨c, hc, fc, hfc,
      ⟨_, im, him, p, hp, hseg, heq⟩ | ⟨hpre, im, him, p, hp, hsub, hseg, heq⟩⟩
    · simp at heq
    · injection heq with h1 h2
      subst h1
      subst h2
      exact ⟨c, hc, fc, hfc, rfl, hpre, im, him, hp, hsub, hseg⟩
  · rintro ⟨c, hc, fc, hfc, rfl, hpre, im, him, hp, hsub, hseg⟩
    exact ⟨c, hc, fc, hfc, Or.inr ⟨hpre, im, him, pn, hp, hsub, hseg, rfl⟩⟩

theorem filter_orderedInsert_count (k : ℕ) (c : ComponentCounter) :
    ∀ l : List ComponentCounter,
      (List.orderedInsert sortKeyGE c l).filter (fun x => x.statement_count == k) =
        if c.statement_count == k then
          c :: l.filter (fun x => x.statement_count == k)
        else l.filter (fun x => x.statement_count == k) := by
  intro l
  induction l with
  | nil => simp [List.orderedInsert, List.filter_cons]
  | cons b bs ih =>
    rw [List.orderedInsert]
    by_cases h : sortKeyGE c b
    · rw [if_pos h]
      by_cases hck : c.statement_count == k
      · simp [List.filter_cons, hck]
      · simp [List.filter_cons, hck]
    · rw [if_neg h]
      by_cases hck : c.statement_count == k
      · have hbk : (b.statement_count == k) = false := by
          simp only [sortKeyGE] at h
          simp only [beq_iff_eq] at hck ⊢
          simp only [beq_eq_false_iff_ne]
          omega
        simp [List.filter_cons, hbk, ih, hck]
      · by_cases hbk : b.statement_count == k
        · simp [List.filter_cons, hbk, ih, hck]
        · simp [List.filter_cons, hbk, ih, hck]

theorem filter_insertionSort_count (k : ℕ) (l : List ComponentCounter) :
    (l.insertionSort sortKeyGE).filter (fun x => x.statement_count == k) =
      l.filter (fun x => x.statement_count == k) := by
  induction l with
  | nil => simp
  | cons c cs ih =>
    rw [List.insertionSort, filter_orderedInsert_count, ih, List.filter_cons]

/-- Claim C9, amended: `save_report` serializes the components sorted by
statement count descending, ties kept in the components' original
(first-seen) order — Python's `sorted` is stable and has no path tie-break —
and the output is a permutation of the path/count pairs, hence deterministic
for a fixed snapshot. -/
theorem save_report_sorted_stable (counter : GlobalCounter) (k : ℕ) :
    List.Sorted (fun a b : String × ℕ => b.2 ≤ a.2) (save_report counter) ∧
    (save_report counter).filter (fun p => p.2 == k) =
      (counter.component_counters.filter (fun c => c.statement_count == k)).map
        (fun c => (pathStr c.component_path, c.statement_count)) ∧
    (save_report counter).Perm (counter.component_counters.map
      (fun c => (pathStr c.component_path, c.statement_count))) := by
  refine ⟨?_, ?_, ?_⟩
  · unfold save_report
    rw [List.Sorted, List.pairwise_map]
    exact List.sorted_insertionSort sortKeyGE _
  · unfold save_report
    rw [List.filter_map]
    have := filter_insertionSort_count k counter.component_counters
    simpa [Function.comp_def] using congrArg
      (List.map (fun c => (pathStr c.component_path, c.statement_count))) this
  · exact (List.perm_insertionSort sortKeyGE _).map _

theorem addFileCounter_sum (cp : PyPath) (fc : FileCounter) :
    ∀ comps : List ComponentCounter,
      ((addFileCounter cp fc comps).map ComponentCounter.statement_count).sum =
        (comps.map ComponentCounter.statement_count).sum + fc.statement_count := by
  intro comps
  induction comps with
  | nil => simp [addFileCounter]
  | cons c cs ih =>
    rw [addFileCounter]
    split
    · simp
      omega
    · simp [ih]
      omega

theorem addFileCounter_prop (cp : PyPath) (fc : FileCounter) :
    ∀ comps : List ComponentCounter,
      (∀ c ∈ comps,
        c.statement_count = (c.file_counters.map FileCounter.statement_count).sum ∧
          c.file_counters ≠ []) →
      ∀ c ∈ addFileCounter cp fc comps,
        c.statement_count = (c.file_counters.map FileCounter.statement_count).sum ∧
          c.file_counters ≠ [] := by
  intro comps
  induction comps with
  | nil =>
    intro _ c hc
    simp [addFileCounter] at hc
    subst hc
    simp
  | cons c0 cs ih =>
    intro h c hc
    rw [addFileCounter] at hc
    split at hc
    · rcases List.mem_cons.mp hc with hc | hc
      · subst hc
        obtain ⟨hsum, _⟩ := h c0 (by simp)
        constructor
        · simp [hsum]
        · simp
      · exact h c (by simp [hc])
    · rcases List.mem_cons.mp hc with hc | hc
      · subst hc
        exact h c (by simp)
      · exact ih (fun c' hc' => h c' (by simp [hc'])) c hc

theorem processFile_inv (dirPath : PyPath) (isPkg : Bool) (st : CounterState) (f : PyFile)
    (h : CounterInv st) : CounterInv (processFile dirPath isPkg st f) := by
  unfold processFile
  split
  · exact h
  · split
    · exact h
    · obtain ⟨h1, h2⟩ := h
      constructor
      · simpa [addFileCounter_sum] using congrArg (· + countStatements f.nodes) h1
      · exact addFileCounter_prop _ _ _ h2

theorem foldl_processFile_inv (dirPath : PyPath) (isPkg : Bool) :
    ∀ (files : List PyFile) (st : CounterState), CounterInv st →
      CounterInv (files.foldl (processFile dirPath isPkg) st) := by
  intro files
  induction files with
  | nil => intro st h; exact h
  | cons f fs ih => intro st h; exact ih _ (processFile_inv _ _ _ _ h)

theorem process_inv_all : ∀ N : Nat,
    (∀ t : FSTree, sizeOf t ≤ N → ∀ (p : PyPath) (st : CounterState),
      CounterInv st → CounterInv (processDir p t st)) ∧
    (∀ f : FSForest, sizeOf f ≤ N → ∀ (p : PyPath) (kept : List String) (st : CounterState),
      CounterInv st → CounterInv (processForest p kept f st)) := by
  intro N
  induction N with
  | zero =>
    constructor
    · intro t hle
      cases t with
      | node n s fl => simp at hle
    · intro f hle
      cases f with
      | nil => intro p kept st h; rw [processForest]; exact h
      | cons t ts => simp at hle
  | succ N ih =>
    constructor
    · intro t hle p st h
      cases t with
      | node n subdirs files =>
        rw [processDir]
        refine ih.2 subdirs ?_ _ _ _ (foldl_processFile_inv _ _ files st h)
        simp at hle
        omega
    · intro f hle p kept st h
      cases f with
      | nil => rw [processForest]; exact h
      | cons t ts =>
        rw [processForest]
        have hts : sizeOf ts ≤ N := by simp at hle; omega
        have ht : sizeOf t ≤ N := by simp at hle; omega
        refine ih.2 ts hts _ _ _ ?_
        split
        · exact ih.1 t ht _ _ h
        · exact h

/-- Claim C6: for every scanned tree, the global statement count is the sum
of the component counts, every component's count is the sum of its files'
counts, and every component holds at least one file (the `defaultdict`
never leaves a phantom zero-file entry behind). -/
theorem generate_counter_count_invariants (t : FSTree) :
    (generate_counter t).statement_count =
      ((generate_counter t).component_counters.map ComponentCounter.statement_count).sum ∧
    ∀ c ∈ (generate_counter t).component_counters,
      c.statement_count = (c.file_counters.map FileCounter.statement_count).sum ∧
        c.file_counters ≠ [] := by
  have h := (process_inv_all (sizeOf t)).1 t le_rfl [treeName t] ⟨[], 0⟩ (by simp [CounterInv])
  exact ⟨h.1, h.2⟩

theorem calc_outlier_example :
    calculate_std_dev_and_mean counterOutlier = .ok (45, 65/2) := by
  have habs1 : |(10:ℝ) - 130/4| = 45/2 := by
    rw [abs_of_nonpos] <;> norm_num
  have habs2 : |(100:ℝ) - 130/4| = 135/2 := by
    rw [abs_of_nonneg] <;> norm_num
  simp only [calculate_std_dev_and_mean, counterOutlier]
  norm_num [habs1, habs2]
  rw [show (2025:ℝ) = 45^2 by norm_num, Real.sqrt_sq (by norm_num : (0:ℝ) ≤ 45)]

theorem checks_outlier_example :
    component_checks 45 (65/2) counterOutlier.component_counters ([], [], []) =
      .ok ([], ["pa", "pb", "pc", "pd"], []) := by
  have h45 : ¬ ((45:ℝ) = 0) := by norm_num
  have hz1' : ¬ ((3:ℝ) < |(10:ℝ) - 65/2| / 45) := by
    rw [show |(10:ℝ) - 65/2| = 45/2 by rw [abs_of_nonpos] <;> norm_num]
    norm_num
  have hz2' : ¬ ((3:ℝ) < |(100:ℝ) - 65/2| / 45) := by
    rw [show |(100:ℝ) - 65/2| = 135/2 by rw [abs_of_nonneg] <;> norm_num]
    norm_num
  simp only [counterOutlier]
  simp [component_checks, h45, hz1', hz2', leafName, pathStr, setAdd]

/-- Claim C5: with the spec's counts `[10, 10, 10, 100]` (mean 65/2, sample
standard deviation 45, z-score 3/2 for the 100-count component) and a
configured threshold of 1.0, `generate_report` emits NO ComponentOutlier
warning although the z-score exceeds the configured threshold: the source
compares against the hardcoded literal `3` and never reads
`max_component_statement_std_deviation_count`. -/
theorem outlier_threshold_ignores_config :
    (generate_report cfgThreshold1 counterOutlier []).map
        Report.component_statement_count_warnings = .ok [] ∧
    cfgThreshold1.max_component_statement_std_deviation_count = 1 ∧
    (1:ℝ) < |(100:ℝ) - 65/2| / 45 ∧
    calculate_std_dev_and_mean counterOutlier = .ok (45, 65/2) := by
  refine ⟨?_, rfl, ?_, calc_outlier_example⟩
  · simp only [generate_report]
    simp [calc_outlier_example, checks_outlier_example, Except.map]
  · rw [show |(100:ℝ) - 65/2| = 135/2 by rw [abs_of_nonneg] <;> norm_num]
    norm_num
